import Mathlib

/-!
# Verification of the TUN inbound adapter (`clash_lib/src/proxy/tun/inbound.rs`)

Shallow embedding of the config validation (`get_runner`), the TCP session
adapter (`handl_inbound_stream`) and the UDP session adapter's
dispatcher-to-stack loop (`handle_inbound_datagram`), together with proofs of
the spec's testable properties about them.

Machine integers are modelled as `Nat`/`Int` with explicit bounds; fallible
operations return `Option`; panics (`expect`, `unwrap`,
`must_into_socket_addr`) are explicit outcome constructors.
-/

namespace TunInbound

/-! ## Addresses and sessions

`IpAddr` models `std::net::IpAddr`: a v4 address is its 32-bit numeric value,
a v6 address its 128-bit numeric value.  `SocketAddr` pairs an address with a
16-bit port.  `SocksAddr` models `session::SocksAddr`, the tagged union of a
concrete socket address and a hostname+port pair. -/

inductive IpAddr where
  | v4 (a : Nat)
  | v6 (a : Nat)
deriving DecidableEq, Repr

structure SocketAddr where
  ip : IpAddr
  port : Nat
deriving DecidableEq, Repr

inductive SocksAddr where
  | ip (a : SocketAddr)
  | domain (host : String) (port : Nat)
deriving DecidableEq, Repr

/-- Models `session::Network` restricted to the two variants used here. -/
inductive Network where
  | tcp
  | udp
deriving DecidableEq, Repr

/-- Models the three `Session` fields set by this file (`network`, `source`,
`destination`); the remaining fields come from `Session::default()` and are
never read by this core. -/
structure Session where
  network : Network
  source : SocketAddr
  destination : SocksAddr
deriving DecidableEq, Repr

/-- Models `ThreadSafeDNSResolver` as the four non-mutating query operations
this core calls, made pure oracles. -/
structure Resolver where
  fake_ip_enabled : Bool
  is_fake_ip : IpAddr → Bool
  reverse_lookup : IpAddr → Option String
  lookup_fake_ip : String → Option IpAddr

/-- Modelled from the spec: the `TryInto` conversion from `(host, port)` to
`SocksAddr` used at `sess.destination = (host, remote_addr.port()).try_into()`
(implemented in `session.rs`, which is outside `src/`).  Per the spec, the
reverse-resolved destination is "the mapped hostname with the original
port". -/
def socksAddrOfHostPort (host : String) (port : Nat) : SocksAddr :=
  SocksAddr.domain host port

/-- Modelled from the spec: the `From<SocketAddr>` conversion used at
`destination: remote_addr.into()` (outside `src/`); the concrete remote
endpoint becomes the concrete-IP variant unchanged. -/
def socksAddrOfSocketAddr (a : SocketAddr) : SocksAddr :=
  SocksAddr.ip a

/-! ## TCP session adapter -/

/-- Embedding of `handl_inbound_stream` (inbound.rs lines 18–42), up to the
dispatcher handoff: `some sess` means `dispatch_stream(sess, stream)` is
called with that session, `none` means the handler returns without
dispatching. -/
def handl_inbound_stream (resolver : Resolver) (local_addr remote_addr : SocketAddr) :
    Option Session :=
  let sess : Session :=
    { network := Network.tcp
      source := local_addr
      destination := socksAddrOfSocketAddr remote_addr }
  if resolver.fake_ip_enabled && resolver.is_fake_ip remote_addr.ip then
    match resolver.reverse_lookup remote_addr.ip with
    | some host =>
        some { sess with destination := socksAddrOfHostPort host remote_addr.port }
    | none => none
  else
    some sess

/-- The TCP accept loop (inbound.rs lines 215–225): each accepted connection
`(local_addr, remote_addr)` is handled by an independent `handl_inbound_stream`
task; the dispatched sessions are exactly the `some` results, in order. -/
def handleConnections (resolver : Resolver) (conns : List (SocketAddr × SocketAddr)) :
    List Session :=
  conns.filterMap (fun c => handl_inbound_stream resolver c.1 c.2)

/-! ## UDP session adapter: dispatcher → stack loop -/

/-- Models `proxy::datagram::UdpPacket`: payload bytes plus source and
destination endpoints, each either concrete or a hostname+port. -/
structure UdpPacket where
  data : List Nat
  src_addr : SocksAddr
  dst_addr : SocksAddr
deriving DecidableEq, Repr

/-- Models `SocksAddr::must_into_socket_addr`: succeeds on a concrete address
and panics (`none`) on a hostname. -/
def SocksAddr.must_into_socket_addr : SocksAddr → Option SocketAddr
  | SocksAddr.ip a => some a
  | SocksAddr.domain _ _ => none

/-- What one iteration of the dispatcher→stack loop (inbound.rs lines 61–82)
does with the packet it received. -/
inductive UdpStepOutcome where
  /-- The call `ls.send_to(data, src, dst)` was made and succeeded; the loop
  continues. -/
  | sent (data : List Nat) (src dst : SocketAddr)
  /-- The call `ls.send_to(data, src, dst)` was made and returned an error;
  the error is logged and the loop continues. -/
  | sendFailed (data : List Nat) (src dst : SocketAddr)
  /-- The source was a hostname with no forward fake-IP mapping; the packet
  is logged and dropped (`continue`). -/
  | droppedNoFakeIp (host : String)
  /-- The conversion `must_into_socket_addr` was reached with a hostname
  destination: the loop task panics. -/
  | panicked
deriving DecidableEq, Repr

/-- Embedding of the body of `while let Some(pkt) = l_rx.recv()` (inbound.rs
lines 62–81).  The source endpoint is resolved first (a hostname source whose
forward lookup misses is dropped with `continue` before the destination is
looked at); then the destination is converted with `must_into_socket_addr`
while evaluating the arguments of `send_to`; `sendOk` is the outcome of the
`send_to` I/O call. -/
def udpLoopStep (resolver : Resolver) (sendOk : Bool) (pkt : UdpPacket) :
    UdpStepOutcome :=
  let callSendTo (src : SocketAddr) : UdpStepOutcome :=
    match pkt.dst_addr.must_into_socket_addr with
    | none => UdpStepOutcome.panicked
    | some dst =>
        if sendOk then UdpStepOutcome.sent pkt.data src dst
        else UdpStepOutcome.sendFailed pkt.data src dst
  match pkt.src_addr with
  | SocksAddr.ip a => callSendTo a
  | SocksAddr.domain host port =>
      match resolver.lookup_fake_ip host with
      | some ip => callSendTo { ip := ip, port := port }
      | none => UdpStepOutcome.droppedNoFakeIp host

/-- The dispatcher→stack loop over a finite prefix of the channel: each input
pairs a received packet with the result its `send_to` would have.  The loop
keeps iterating after a drop or a send failure; a panic kills the task, so
later packets are never processed.  Returns the outcomes of the processed
iterations. -/
def udpLoop (resolver : Resolver) : List (UdpPacket × Bool) → List UdpStepOutcome
  | [] => []
  | (pkt, sendOk) :: rest =>
      let out := udpLoopStep resolver sendOk pkt
      match out with
      | UdpStepOutcome.panicked => [UdpStepOutcome.panicked]
      | _ => out :: udpLoop resolver rest

/-! ## Device identifier parsing (`url::Url::parse` fragment)

`get_runner` only reads `u.scheme()` and `u.host()` of the parsed identifier.
`UrlParts` records those two projections.  `urlParse` models the `url` crate
on the fragment relevant here: a non-special scheme (ASCII alpha followed by
alphanumerics, `+`, `-`, `.`), lowercased; after `scheme:` either `//` and an
authority whose host is taken (userinfo up to the last `@` stripped, a `:port`
suffix cut off), or an opaque path with no host.  IPv6 host brackets and
percent-escapes are outside the modelled fragment. -/

structure UrlParts where
  scheme : String
  host : Option String
deriving DecidableEq, Repr

def validSchemeChars : List Char → Bool
  | [] => false
  | c :: cs =>
      c.isAlpha &&
        cs.all (fun d => d.isAlphanum || d = '+' || d = '-' || d = '.')

/-- Split a character list at the first `:`, returning the parts before and
after it. -/
def splitAtColon : List Char → Option (List Char × List Char)
  | [] => none
  | c :: cs =>
      if c = ':' then some ([], cs)
      else (splitAtColon cs).map (fun p => (c :: p.1, p.2))

/-- Drop an authority's userinfo: keep only what follows the last `@`. -/
def afterLastAt (l : List Char) : List Char :=
  (l.reverse.takeWhile (fun c => c ≠ '@')).reverse

def urlParse (s : String) : Option UrlParts :=
  match splitAtColon s.data with
  | none => none
  | some (schemeChars, rest) =>
      if validSchemeChars schemeChars then
        let scheme := String.mk (schemeChars.map Char.toLower)
        match rest with
        | '/' :: '/' :: r =>
            let authority := r.takeWhile (fun c => c ≠ '/' && c ≠ '?' && c ≠ '#')
            let host := (afterLastAt authority).takeWhile (fun c => c ≠ ':')
            some { scheme := scheme, host := some (String.mk host) }
        | _ => some { scheme := scheme, host := none }
      else none

/-- Models `str::parse::<i32>`: optional sign, at least one ASCII digit, and
the value fits in a 32-bit signed integer. -/
def parseI32 (s : String) : Option Int :=
  let p : Int × List Char :=
    match s.data with
    | '+' :: r => (1, r)
    | '-' :: r => (-1, r)
    | r => (1, r)
  if p.2 ≠ [] && p.2.all Char.isDigit then
    let n : Nat := p.2.foldl (fun a c => a * 10 + (c.toNat - 48)) 0
    let v : Int := p.1 * (n : Int)
    if -(2 ^ 31) ≤ v ∧ v < 2 ^ 31 then some v else none
  else none

/-! ## CIDR networks (`ipnet::IpNet` fragment) -/

/-- An IPv4 network: 32-bit numeric address and prefix length ≤ 32 (the
bounds `ipnet` guarantees for any parsed network). -/
structure Ipv4Net where
  addr : Nat
  prefix_len : Nat
  addr_lt : addr < 2 ^ 32
  prefix_le : prefix_len ≤ 32

/-- An IPv6 network: 128-bit numeric address and prefix length ≤ 128. -/
structure Ipv6Net where
  addr : Nat
  prefix_len : Nat
  addr_lt : addr < 2 ^ 128
  prefix_le : prefix_len ≤ 128

inductive IpNet where
  | v4 (n : Ipv4Net)
  | v6 (n : Ipv6Net)

/-- IPv4 network address: the address with the host bits cleared. -/
def Ipv4Net.network (n : Ipv4Net) : Nat :=
  n.addr / 2 ^ (32 - n.prefix_len) * 2 ^ (32 - n.prefix_len)

/-- IPv4 broadcast address: the address with the host bits set. -/
def Ipv4Net.broadcast (n : Ipv4Net) : Nat :=
  n.network + (2 ^ (32 - n.prefix_len) - 1)

def Ipv4Net.netmask (n : Ipv4Net) : Nat :=
  2 ^ 32 - 2 ^ (32 - n.prefix_len)

def Ipv6Net.network (n : Ipv6Net) : Nat :=
  n.addr / 2 ^ (128 - n.prefix_len) * 2 ^ (128 - n.prefix_len)

def Ipv6Net.netmask (n : Ipv6Net) : Nat :=
  2 ^ 128 - 2 ^ (128 - n.prefix_len)

/-- Models `IpNet::hosts().nth(0)`.  For IPv4, `ipnet::Ipv4Net::hosts` ranges
from the network to the broadcast address, shrunk by one on each side when
`prefix_len < 31` (excluding network and broadcast addresses); for IPv6,
`Ipv6Net::hosts` ranges over every address of the network.  `none` models an
empty range. -/
def IpNet.hostsFirst : IpNet → Option IpAddr
  | IpNet.v4 n =>
      let start := if n.prefix_len < 31 then n.network + 1 else n.network
      let stop := if n.prefix_len < 31 then n.broadcast - 1 else n.broadcast
      if start ≤ stop then some (IpAddr.v4 start) else none
  | IpNet.v6 n =>
      let start := n.network
      let stop := n.network + (2 ^ (128 - n.prefix_len) - 1)
      if start ≤ stop then some (IpAddr.v6 start) else none

def IpNet.netmask : IpNet → IpAddr
  | IpNet.v4 n => IpAddr.v4 n.netmask
  | IpNet.v6 n => IpAddr.v6 n.netmask

/-- Split a character list at every occurrence of `sep` (the semantics of
`str::split` on a single-character pattern: the empty input yields one empty
piece, adjacent separators yield empty pieces). -/
def splitChars (sep : Char) : List Char → List (List Char)
  | [] => [[]]
  | c :: cs =>
      let r := splitChars sep cs
      if c = sep then [] :: r
      else
        match r with
        | h :: t => (c :: h) :: t
        | [] => [[c]]

/-- Models `Ipv4Addr::from_str`: four dot-separated decimal octets, each
0–255, without leading zeros.  Returns the 32-bit numeric value. -/
def parseIpv4Addr (s : String) : Option Nat :=
  let octet (cs : List Char) : Option Nat :=
    if cs ≠ [] && cs.length ≤ 3 && cs.all Char.isDigit &&
        !(cs.length > 1 && cs.headI = '0') then
      let v := cs.foldl (fun a c => a * 10 + (c.toNat - 48)) 0
      if v ≤ 255 then some v else none
    else none
  match (splitChars '.' s.data).map octet with
  | [some a, some b, some c, some d] =>
      some (a * 2 ^ 24 + b * 2 ^ 16 + c * 2 ^ 8 + d)
  | _ => none

/-- Models `u8::from_str`: optional `+` sign, ASCII digits, value < 256. -/
def parseU8 (s : String) : Option Nat :=
  let ds := match s.data with
    | '+' :: r => r
    | r => r
  if ds ≠ [] && ds.all Char.isDigit then
    let v := ds.foldl (fun a c => a * 10 + (c.toNat - 48)) 0
    if v < 256 then some v else none
  else none

/-- Models `"..".parse::<ipnet::IpNet>()` on the IPv4 textual form
`a.b.c.d/prefix` (address, one slash, prefix ≤ 32).  The IPv6 textual form is
outside the modelled fragment; the structural theorems below quantify over the
`IpNet` type directly. -/
def ipNetParse (s : String) : Option IpNet :=
  match splitChars '/' s.data with
  | [addrPart, prefixPart] =>
      match parseIpv4Addr (String.mk addrPart), parseU8 (String.mk prefixPart) with
      | some a, some p =>
          if h : a < 2 ^ 32 ∧ p ≤ 32 then
            some (IpNet.v4 { addr := a, prefix_len := p,
                             addr_lt := h.1, prefix_le := h.2 })
          else none
      | _, _ => none
  | _ => none

/-! ## `get_runner` -/

/-- The three `TunConfig` fields read by `get_runner`. -/
structure TunConfig where
  enable : Bool
  device_id : String
  network : Option String

/-- The interface-open strategy selected from the device identifier:
`tun_cfg.raw_fd(fd)` or `tun_cfg.name(dev)`. -/
inductive DeviceStrategy where
  | fd (n : Int)
  | dev (name : String)
deriving DecidableEq, Repr

/-- What `get_runner` has decided by the time it builds the runner: the
open strategy and the address/netmask assigned to the interface
(`tun_cfg.address(..).netmask(..).up()`). -/
structure RunnerPlan where
  device : DeviceStrategy
  address : IpAddr
  netmask : IpAddr
deriving DecidableEq, Repr

/-- Result of `get_runner`'s configuration phase.  `noRunner` is `Ok(None)`;
`runner` is `Ok(Some(..))` carrying the validated plan (the subsequent
device/netstack opening is external I/O, not configuration validation);
`configError` is `Err(Error::InvalidConfig ..)`; `panicked` models a
`.expect(..)` panic, which is not a returned error. -/
inductive RunnerOutcome where
  | noRunner
  | runner (plan : RunnerPlan)
  | configError (msg : String)
  | panicked (msg : String)
deriving DecidableEq, Repr

/-- The straight-line tail of `get_runner` after the scheme match selected an
open strategy (inbound.rs lines 148–171): parse the CIDR (defaulting to
`198.18.0.0/16`), take the network's first host address as the interface
address and the network's netmask as the interface netmask
(`tun_cfg.address(network.hosts().nth(0).expect(..)).netmask(network.netmask()).up()`),
and build the runner plan. -/
def buildWithDevice (cfg : TunConfig) (device : DeviceStrategy) : RunnerOutcome :=
  match ipNetParse (cfg.network.getD "198.18.0.0/16") with
  | none => RunnerOutcome.configError "invalid IP address syntax"
  | some net =>
      match net.hostsFirst with
      | none =>
          RunnerOutcome.panicked "tun network doesn't contain any address"
      | some a =>
          RunnerOutcome.runner
            { device := device, address := a, netmask := net.netmask }

/-- Embedding of `get_runner` (inbound.rs lines 110–171) up to the point
where the runner future is constructed. -/
def get_runner (cfg : TunConfig) : RunnerOutcome :=
  if !cfg.enable then RunnerOutcome.noRunner
  else
    match urlParse cfg.device_id with
    | none => RunnerOutcome.configError "tun device relative URL without a base"
    | some u =>
        let withDevice := buildWithDevice cfg
        if u.scheme = "fd" then
          match u.host with
          | none => RunnerOutcome.panicked "tun fd must be provided"
          | some h =>
              match parseI32 h with
              | none => RunnerOutcome.configError "tun fd invalid digit found in string"
              | some n => withDevice (DeviceStrategy.fd n)
        else if u.scheme = "dev" then
          match u.host with
          | none => RunnerOutcome.panicked "tun dev must be provided"
          | some h => withDevice (DeviceStrategy.dev h)
        else
          RunnerOutcome.configError ("invalid device id: " ++ cfg.device_id)

/-! ## Lifecycle: the runner future (inbound.rs lines 171–234)

The runner pushes four futures into `futs` — the stack→tun frame pump, the
tun→stack frame pump, the TCP accept loop, and the UDP adapter — and awaits
`futures::future::join_all(futs)`, then logs `tun at .. stopped`.  Each task's
behaviour is abstracted to an optional completion time (`some t` = completes
after `t` steps, `none` = never completes); `join_all` completes exactly when
every joined future has, at the latest of their times. -/

structure TunnelTasks where
  stackToTun : Option Nat
  tunToStack : Option Nat
  tcpAccept : Option Nat
  udpAdapter : Option Nat

/-- The `futs` vector, in push order. -/
def runnerFuts (t : TunnelTasks) : List (Option Nat) :=
  [t.stackToTun, t.tunToStack, t.tcpAccept, t.udpAdapter]

/-- Completion of `futures::future::join_all`: defined iff every joined
future completes, at the maximum completion time. -/
def joinAll (ts : List (Option Nat)) : Option Nat :=
  ts.foldr
    (fun f acc =>
      match f, acc with
      | some a, some b => some (max a b)
      | _, _ => none)
    (some 0)

/-- When the runner future returned by `get_runner` completes. -/
def runnerCompletesAt (t : TunnelTasks) : Option Nat :=
  joinAll (runnerFuts t)

/-- When `warn!("tun at {} stopped", ..)` runs: immediately after
`join_all(futs).await` returns. -/
def tunStoppedLoggedAt (t : TunnelTasks) : Option Nat :=
  runnerCompletesAt t

/-! ## Concrete fixtures used by the witnesses -/

/-- A resolver with fake-IP translation disabled. -/
def noFakeResolver : Resolver :=
  { fake_ip_enabled := false
    is_fake_ip := fun _ => false
    reverse_lookup := fun _ => none
    lookup_fake_ip := fun _ => none }

/-- A fake-IP resolver mapping 198.18.0.5 (numeric 3323068421) to
`example.com`, matching the spec's end-to-end scenario. -/
def exampleResolver : Resolver :=
  { fake_ip_enabled := true
    is_fake_ip := fun a => decide (a = IpAddr.v4 3323068421)
    reverse_lookup := fun a =>
      if a = IpAddr.v4 3323068421 then some "example.com" else none
    lookup_fake_ip := fun h =>
      if h = "example.com" then some (IpAddr.v4 3323068421) else none }

/-- A resolver whose fake-IP table is empty (every forward lookup misses). -/
def emptyTableResolver : Resolver :=
  { fake_ip_enabled := true
    is_fake_ip := fun _ => true
    reverse_lookup := fun _ => none
    lookup_fake_ip := fun _ => none }

/-! # Theorems -/

/-- Every CIDR network, IPv4 or IPv6, contains at least one host address: for
IPv4 with prefix < 31 the shrunk range still has `2^(32-p) - 2 ≥ 2`
addresses, for prefix 31/32 and for IPv6 the range starts at the network
address itself.  Hence `network.hosts().nth(0)` always exists and the
`expect` guarding it in `get_runner` is unreachable. -/
theorem hostsFirst_isSome (net : IpNet) : ∃ a, net.hostsFirst = some a := by
  cases net with
  | v4 n =>
      unfold IpNet.hostsFirst
      by_cases h : n.prefix_len < 31
      · have h4 : 4 ≤ 2 ^ (32 - n.prefix_len) := by
          calc (4 : Nat) = 2 ^ 2 := by norm_num
            _ ≤ 2 ^ (32 - n.prefix_len) := Nat.pow_le_pow_right (by norm_num) (by omega)
        have hle : n.network + 1 ≤ n.broadcast - 1 := by
          unfold Ipv4Net.broadcast; omega
        exact ⟨IpAddr.v4 (n.network + 1), by simp [h, hle]⟩
      · have hle : n.network ≤ n.broadcast := by
          unfold Ipv4Net.broadcast; omega
        exact ⟨IpAddr.v4 n.network, by simp [h, hle]⟩
  | v6 n =>
      exact ⟨IpAddr.v6 n.network, by simp [IpNet.hostsFirst]⟩

/-- C2: for every accepted TCP connection whose remote IP the resolver does
not flag as synthetic (fake-ip disabled, or `is_fake_ip` false), the session
handed to `dispatch_stream` has transport TCP, source = the connection's
local endpoint, and destination = the original concrete remote IP+port,
unchanged. -/
theorem tcp_nonfake_destination_unchanged
    (resolver : Resolver) (local_addr remote_addr : SocketAddr)
    (h : ¬(resolver.fake_ip_enabled = true ∧
            resolver.is_fake_ip remote_addr.ip = true)) :
    handl_inbound_stream resolver local_addr remote_addr =
      some { network := Network.tcp, source := local_addr,
             destination := SocksAddr.ip remote_addr } := by
  have hcond :
      (resolver.fake_ip_enabled && resolver.is_fake_ip remote_addr.ip) = false := by
    cases he : resolver.fake_ip_enabled <;>
      cases hf : resolver.is_fake_ip remote_addr.ip <;> simp_all
  simp [handl_inbound_stream, hcond, socksAddrOfSocketAddr]

theorem tcp_nonfake_destination_unchanged_witness :
    handl_inbound_stream noFakeResolver
        { ip := IpAddr.v4 1, port := 5000 } { ip := IpAddr.v4 2, port := 80 } =
      some { network := Network.tcp,
             source := { ip := IpAddr.v4 1, port := 5000 },
             destination := SocksAddr.ip { ip := IpAddr.v4 2, port := 80 } } :=
  tcp_nonfake_destination_unchanged noFakeResolver _ _ (by decide)

/-- C1: for every accepted TCP connection whose remote IP is synthetic
(fake-ip enabled and `is_fake_ip` true): a successful reverse lookup makes
the dispatched session's destination the mapped hostname with the original
remote port; a failed reverse lookup dispatches nothing for that connection;
connections are handled independently (splitting the accept sequence splits
the dispatched sessions); and, fake-ip being enabled, no dispatched session
carries a destination IP the resolver flags as synthetic. -/
theorem tcp_fake_ip_reverse_resolution
    (resolver : Resolver) (local_addr remote_addr : SocketAddr)
    (hen : resolver.fake_ip_enabled = true)
    (hfake : resolver.is_fake_ip remote_addr.ip = true) :
    (∀ host, resolver.reverse_lookup remote_addr.ip = some host →
        handl_inbound_stream resolver local_addr remote_addr =
          some { network := Network.tcp, source := local_addr,
                 destination := SocksAddr.domain host remote_addr.port })
    ∧ (resolver.reverse_lookup remote_addr.ip = none →
        handl_inbound_stream resolver local_addr remote_addr = none)
    ∧ (∀ conns conns2 : List (SocketAddr × SocketAddr),
        handleConnections resolver (conns ++ conns2) =
          handleConnections resolver conns ++ handleConnections resolver conns2)
    ∧ (∀ conns : List (SocketAddr × SocketAddr),
        ∀ s ∈ handleConnections resolver conns,
          ∀ a, s.destination = SocksAddr.ip a →
            resolver.is_fake_ip a.ip = false) := by
  refine ⟨?_, ?_, ?_, ?_⟩
  · intro host hrev
    simp [handl_inbound_stream, hen, hfake, hrev, socksAddrOfHostPort]
  · intro hrev
    simp [handl_inbound_stream, hen, hfake, hrev]
  · intro conns conns2
    simp [handleConnections, List.filterMap_append]
  · intro conns s hs a hdest
    obtain ⟨c, _, hsome⟩ := List.mem_filterMap.mp hs
    by_cases hf : resolver.is_fake_ip c.2.ip = true
    · rcases hrl : resolver.reverse_lookup c.2.ip with _ | host <;>
        simp [handl_inbound_stream, hen, hf, hrl] at hsome
      rw [← hsome] at hdest
      cases hdest
    · have hf' : resolver.is_fake_ip c.2.ip = false := by
        cases hv : resolver.is_fake_ip c.2.ip
        · rfl
        · exact absurd hv hf
      simp [handl_inbound_stream, hen, hf', socksAddrOfSocketAddr] at hsome
      rw [← hsome] at hdest
      cases hdest
      exact hf'

theorem tcp_fake_ip_reverse_resolution_witness :
    handl_inbound_stream exampleResolver
        { ip := IpAddr.v4 167772162, port := 5000 }
        { ip := IpAddr.v4 3323068421, port := 80 } =
      some { network := Network.tcp,
             source := { ip := IpAddr.v4 167772162, port := 5000 },
             destination := SocksAddr.domain "example.com" 80 } :=
  (tcp_fake_ip_reverse_resolution exampleResolver
      { ip := IpAddr.v4 167772162, port := 5000 }
      { ip := IpAddr.v4 3323068421, port := 80 }
      (by decide) (by decide)).1 "example.com" (by decide)

/-- C6: for every configuration with `enable = false`, `get_runner` returns
`Ok(None)` — no unit of work, a valid no-op outcome, not an error —
regardless of the other configuration fields. -/
theorem get_runner_disabled_is_noop (device_id : String) (network : Option String) :
    get_runner { enable := false, device_id := device_id, network := network } =
      RunnerOutcome.noRunner := rfl

/-- C10: a `send_to` failure in the dispatcher→stack loop is logged and only
that packet is lost; the loop continues, and the remaining packets are
processed exactly as they would have been without the failing one. -/
theorem udp_send_error_not_fatal
    (resolver : Resolver) (pkt : UdpPacket) (d : List Nat) (src dst : SocketAddr)
    (rest : List (UdpPacket × Bool))
    (h : udpLoopStep resolver false pkt = UdpStepOutcome.sendFailed d src dst) :
    udpLoop resolver ((pkt, false) :: rest) =
      UdpStepOutcome.sendFailed d src dst :: udpLoop resolver rest := by
  simp [udpLoop, h]

theorem udp_send_error_not_fatal_witness :
    udpLoop noFakeResolver
        [({ data := [1], src_addr := SocksAddr.ip { ip := IpAddr.v4 3, port := 4 },
            dst_addr := SocksAddr.ip { ip := IpAddr.v4 7, port := 80 } }, false),
         ({ data := [2], src_addr := SocksAddr.ip { ip := IpAddr.v4 5, port := 6 },
            dst_addr := SocksAddr.ip { ip := IpAddr.v4 8, port := 81 } }, true)] =
      [UdpStepOutcome.sendFailed [1] { ip := IpAddr.v4 3, port := 4 }
          { ip := IpAddr.v4 7, port := 80 },
       UdpStepOutcome.sent [2] { ip := IpAddr.v4 5, port := 6 }
          { ip := IpAddr.v4 8, port := 81 }] := by
  rw [udp_send_error_not_fatal noFakeResolver _ [1] { ip := IpAddr.v4 3, port := 4 }
      { ip := IpAddr.v4 7, port := 80 } _ (by decide)]
  decide

/-- C7 counterexample: under `exampleResolver` the hostname source
`example.com` has a forward fake-IP mapping, yet for a packet whose
destination is itself a hostname the loop panics while evaluating
`must_into_socket_addr`, and `send_to` is never called — the looked-up source
is not "written into the stack" as the claim states. -/
theorem udp_source_substitution_counterexample :
    exampleResolver.lookup_fake_ip "example.com" = some (IpAddr.v4 3323068421) ∧
    udpLoopStep exampleResolver true
        { data := [1], src_addr := SocksAddr.domain "example.com" 53,
          dst_addr := SocksAddr.domain "other.org" 80 } = UdpStepOutcome.panicked ∧
    (∀ d s t, udpLoopStep exampleResolver true
        { data := [1], src_addr := SocksAddr.domain "example.com" 53,
          dst_addr := SocksAddr.domain "other.org" 80 } ≠
          UdpStepOutcome.sent d s t) := by
  have e : udpLoopStep exampleResolver true
      { data := [1], src_addr := SocksAddr.domain "example.com" 53,
        dst_addr := SocksAddr.domain "other.org" 80 } = UdpStepOutcome.panicked := by
    decide
  exact ⟨by decide, e, fun d s t h => by rw [e] at h; cases h⟩

/-- C7 (amended): for every received packet whose destination endpoint is
concrete: a hostname source queries the forward fake-ip lookup and, on
success, the returned IP with the packet's source port is the concrete source
passed to the stack write; on lookup failure that single packet is dropped
and the loop continues with the remaining packets; a concrete source is
passed to the stack write unchanged. -/
theorem udp_source_substitution (resolver : Resolver) (sendOk : Bool)
    (pkt : UdpPacket) (dst : SocketAddr)
    (hdst : pkt.dst_addr = SocksAddr.ip dst) :
    (∀ host port, pkt.src_addr = SocksAddr.domain host port →
        (∀ ip, resolver.lookup_fake_ip host = some ip →
            udpLoopStep resolver sendOk pkt =
              if sendOk then UdpStepOutcome.sent pkt.data { ip := ip, port := port } dst
              else UdpStepOutcome.sendFailed pkt.data { ip := ip, port := port } dst)
        ∧ (resolver.lookup_fake_ip host = none →
            udpLoopStep resolver sendOk pkt = UdpStepOutcome.droppedNoFakeIp host
            ∧ ∀ rest, udpLoop resolver ((pkt, sendOk) :: rest) =
                UdpStepOutcome.droppedNoFakeIp host :: udpLoop resolver rest))
    ∧ (∀ a, pkt.src_addr = SocksAddr.ip a →
        udpLoopStep resolver sendOk pkt =
          if sendOk then UdpStepOutcome.sent pkt.data a dst
          else UdpStepOutcome.sendFailed pkt.data a dst) := by
  constructor
  · intro host port hsrc
    constructor
    · intro ip hip
      simp [udpLoopStep, hsrc, hip, hdst, SocksAddr.must_into_socket_addr]
    · intro hip
      have e : udpLoopStep resolver sendOk pkt =
          UdpStepOutcome.droppedNoFakeIp host := by
        simp [udpLoopStep, hsrc, hip]
      exact ⟨e, fun rest => by simp [udpLoop, e]⟩
  · intro a hsrc
    simp [udpLoopStep, hsrc, hdst, SocksAddr.must_into_socket_addr]

theorem udp_source_substitution_witness :
    udpLoopStep exampleResolver true
        { data := [1], src_addr := SocksAddr.domain "example.com" 53,
          dst_addr := SocksAddr.ip { ip := IpAddr.v4 7, port := 80 } } =
      UdpStepOutcome.sent [1] { ip := IpAddr.v4 3323068421, port := 53 }
        { ip := IpAddr.v4 7, port := 80 } := by
  have h := ((udp_source_substitution exampleResolver true
      { data := [1], src_addr := SocksAddr.domain "example.com" 53,
        dst_addr := SocksAddr.ip { ip := IpAddr.v4 7, port := 80 } }
      { ip := IpAddr.v4 7, port := 80 } rfl).1 "example.com" 53 rfl).1
      (IpAddr.v4 3323068421) (by decide)
  simpa using h

/-- C9 counterexample: a hostname-destination packet whose hostname source
misses the forward lookup is dropped with a log (`continue`) before the
destination is ever examined — it does not panic, contradicting the claim
that every hostname-destination packet panics the loop. -/
theorem udp_domain_dst_panic_counterexample :
    udpLoopStep emptyTableResolver true
        { data := [1], src_addr := SocksAddr.domain "x" 1,
          dst_addr := SocksAddr.domain "y" 2 } =
      UdpStepOutcome.droppedNoFakeIp "x" ∧
    udpLoopStep emptyTableResolver true
        { data := [1], src_addr := SocksAddr.domain "x" 1,
          dst_addr := SocksAddr.domain "y" 2 } ≠ UdpStepOutcome.panicked := by
  decide

/-- C9 (amended): every packet that reaches the stack write — its source
concrete, or a hostname with a successful forward lookup — has its
destination converted with `must_into_socket_addr`; if that destination is a
hostname the loop task panics (no logged drop, and no later packet is
processed).  A hostname-source packet whose lookup fails is dropped before
the destination is examined. -/
theorem udp_domain_dst_panics (resolver : Resolver) (sendOk : Bool)
    (pkt : UdpPacket) (host : String) (port : Nat)
    (hdst : pkt.dst_addr = SocksAddr.domain host port)
    (hsrc : (∃ a, pkt.src_addr = SocksAddr.ip a) ∨
            (∃ h p ip, pkt.src_addr = SocksAddr.domain h p ∧
                resolver.lookup_fake_ip h = some ip)) :
    udpLoopStep resolver sendOk pkt = UdpStepOutcome.panicked
    ∧ ∀ rest, udpLoop resolver ((pkt, sendOk) :: rest) =
        [UdpStepOutcome.panicked] := by
  have e : udpLoopStep resolver sendOk pkt = UdpStepOutcome.panicked := by
    rcases hsrc with ⟨a, ha⟩ | ⟨h, p, ip, hd, hip⟩
    · simp [udpLoopStep, ha, hdst, SocksAddr.must_into_socket_addr]
    · simp [udpLoopStep, hd, hip, hdst, SocksAddr.must_into_socket_addr]
  exact ⟨e, fun rest => by simp [udpLoop, e]⟩

theorem udp_domain_dst_panics_witness :
    udpLoopStep noFakeResolver true
        { data := [1], src_addr := SocksAddr.ip { ip := IpAddr.v4 3, port := 4 },
          dst_addr := SocksAddr.domain "y" 2 } = UdpStepOutcome.panicked :=
  (udp_domain_dst_panics noFakeResolver true _ "y" 2 rfl
      (Or.inl ⟨{ ip := IpAddr.v4 3, port := 4 }, rfl⟩)).1

/-- C3 counterexample: the identifier `fd:1` parses with scheme `fd` and no
host part (opaque path), and `get_runner` panics on the
`u.host().expect("tun fd must be provided")` — it does not return a
configuration error as the claim states. -/
theorem device_id_missing_host_counterexample :
    get_runner { enable := true, device_id := "fd:1", network := none } =
      RunnerOutcome.panicked "tun fd must be provided" ∧
    ∀ msg, get_runner { enable := true, device_id := "fd:1", network := none } ≠
      RunnerOutcome.configError msg := by
  have e : get_runner { enable := true, device_id := "fd:1", network := none } =
      RunnerOutcome.panicked "tun fd must be provided" := by decide
  exact ⟨e, fun msg h => by rw [e] at h; cases h⟩

/-- C3 (amended): scheme `fd` with a host parsing as an integer, or scheme
`dev` with a host, selects the corresponding interface-open strategy; any
other scheme fails with a configuration error naming the offending
identifier; a missing host part makes `get_runner` panic
("tun fd/dev must be provided") rather than return a configuration error;
an identifier that does not parse as a URL at all fails with a configuration
error (whose message reports the parse failure, not the identifier). -/
theorem device_id_validation (cfg : TunConfig) (hen : cfg.enable = true) :
    (∀ h n, urlParse cfg.device_id = some { scheme := "fd", host := some h } →
        parseI32 h = some n →
        get_runner cfg = buildWithDevice cfg (DeviceStrategy.fd n))
    ∧ (∀ h, urlParse cfg.device_id = some { scheme := "dev", host := some h } →
        get_runner cfg = buildWithDevice cfg (DeviceStrategy.dev h))
    ∧ (∀ u, urlParse cfg.device_id = some u → u.scheme ≠ "fd" → u.scheme ≠ "dev" →
        get_runner cfg =
          RunnerOutcome.configError ("invalid device id: " ++ cfg.device_id))
    ∧ (urlParse cfg.device_id = some { scheme := "fd", host := none } →
        get_runner cfg = RunnerOutcome.panicked "tun fd must be provided")
    ∧ (urlParse cfg.device_id = some { scheme := "dev", host := none } →
        get_runner cfg = RunnerOutcome.panicked "tun dev must be provided")
    ∧ (urlParse cfg.device_id = none →
        get_runner cfg =
          RunnerOutcome.configError "tun device relative URL without a base") := by
  refine ⟨?_, ?_, ?_, ?_, ?_, ?_⟩
  · intro h n hurl hfd
    simp [get_runner, hen, hurl, hfd]
  · intro h hurl
    simp [get_runner, hen, hurl]
  · intro u hurl hfd hdev
    simp [get_runner, hen, hurl, hfd, hdev]
  · intro hurl
    simp [get_runner, hen, hurl]
  · intro hurl
    simp [get_runner, hen, hurl]
  · intro hurl
    simp [get_runner, hen, hurl]

theorem device_id_validation_witness :
    get_runner { enable := true, device_id := "x://y", network := none } =
      RunnerOutcome.configError "invalid device id: x://y" ∧
    get_runner { enable := true, device_id := "fd://9", network := some "10.0.0.0/30" } =
      buildWithDevice
        { enable := true, device_id := "fd://9", network := some "10.0.0.0/30" }
        (DeviceStrategy.fd 9) := by
  constructor
  · exact (device_id_validation _ rfl).2.2.1 { scheme := "x", host := some "y" }
      (by decide) (by decide) (by decide)
  · exact (device_id_validation _ rfl).1 "9" 9 (by decide) (by decide)

/-- C4: with `enable = true` and a well-formed `dev` identifier, an absent
network field defaults the CIDR to `198.18.0.0/16`, making the interface
address its first host 198.18.0.1 (numeric 3323068417) and the netmask
255.255.0.0 (numeric 4294901760); and for every CIDR network whose host
range is nonempty, the assigned address is the network's first host address
and the netmask is the network's netmask. -/
theorem network_default_and_first_host (cfg : TunConfig) (hname : String)
    (hen : cfg.enable = true)
    (hurl : urlParse cfg.device_id = some { scheme := "dev", host := some hname }) :
    (cfg.network = none →
        get_runner cfg =
          RunnerOutcome.runner
            { device := DeviceStrategy.dev hname,
              address := IpAddr.v4 3323068417,
              netmask := IpAddr.v4 4294901760 })
    ∧ (∀ net a, ipNetParse (cfg.network.getD "198.18.0.0/16") = some net →
        net.hostsFirst = some a →
        get_runner cfg =
          RunnerOutcome.runner
            { device := DeviceStrategy.dev hname, address := a,
              netmask := net.netmask }) := by
  have hrun : get_runner cfg = buildWithDevice cfg (DeviceStrategy.dev hname) := by
    simp [get_runner, hen, hurl]
  have hgen : ∀ net a, ipNetParse (cfg.network.getD "198.18.0.0/16") = some net →
      net.hostsFirst = some a →
      get_runner cfg =
        RunnerOutcome.runner
          { device := DeviceStrategy.dev hname, address := a,
            netmask := net.netmask } := by
    intro net a hparse hfirst
    rw [hrun]
    simp [buildWithDevice, hparse, hfirst]
  refine ⟨fun hnet => ?_, hgen⟩
  have hparse : ipNetParse (cfg.network.getD "198.18.0.0/16") =
      some (IpNet.v4 ⟨3323068416, 16, by norm_num, by norm_num⟩) := by
    rw [hnet]; rfl
  exact hgen _ (IpAddr.v4 3323068417) hparse rfl

theorem network_default_and_first_host_witness :
    get_runner { enable := true, device_id := "dev://utun9", network := none } =
      RunnerOutcome.runner
        { device := DeviceStrategy.dev "utun9",
          address := IpAddr.v4 3323068417,
          netmask := IpAddr.v4 4294901760 } :=
  (network_default_and_first_host _ "utun9" rfl (by decide)).1 rfl

set_option maxHeartbeats 1600000 in
/-- C8: the runner future awaits `join_all` over the four spawned tasks
(stack→tun pump, tun→stack pump, TCP accept loop, UDP adapter): it completes
at time `n` exactly when all four tasks complete and `n` is the latest of
their completion times; it never completes while any task is still running
(a join, not a race); and the stop log is emitted exactly at the join's
completion. -/
theorem runner_joins_all_tasks (t : TunnelTasks) :
    (∀ n, runnerCompletesAt t = some n ↔
        ∃ a b c d, t.stackToTun = some a ∧ t.tunToStack = some b ∧
          t.tcpAccept = some c ∧ t.udpAdapter = some d ∧
          n = max a (max b (max c d)))
    ∧ (runnerCompletesAt t = none ↔
        t.stackToTun = none ∨ t.tunToStack = none ∨
          t.tcpAccept = none ∨ t.udpAdapter = none)
    ∧ tunStoppedLoggedAt t = runnerCompletesAt t := by
  refine ⟨fun n => ?_, ?_, rfl⟩
  · cases h1 : t.stackToTun <;> cases h2 : t.tunToStack <;>
      cases h3 : t.tcpAccept <;> cases h4 : t.udpAdapter <;>
        simp [runnerCompletesAt, joinAll, runnerFuts, h1, h2, h3, h4, eq_comm]
  · cases h1 : t.stackToTun <;> cases h2 : t.tunToStack <;>
      cases h3 : t.tcpAccept <;> cases h4 : t.udpAdapter <;>
        simp [runnerCompletesAt, joinAll, runnerFuts, h1, h2, h3, h4]

end TunInbound
